import Mathlib

/-!
A shallow embedding of the Django model layer of `meta_class/models.py`
(repository Rapah2002/C-digos).  Decimal fields (2 decimal places) are
modelled as exact rationals, dates as year/month/day records, foreign keys
as numeric row ids, and each model's derived `@property` computations as
Lean functions translated line by line from the source.  Django framework
behaviour that the source invokes through declarations (field validators,
`on_delete=SET_NULL`, `unique_together`, reverse-relation accessor naming,
`PositiveIntegerField`) is modelled from its documented semantics.
-/

/-- A calendar date as used by `datetime.date`: only `year`, `month`, `day`
are consulted by the source. -/
structure PyDate where
  year : Int
  month : Nat
  day : Nat
deriving DecidableEq

/-- Python tuple comparison `(a1, a2) < (b1, b2)` on pairs of ints:
lexicographic. -/
def pyTupleLt (a b : Nat × Nat) : Bool :=
  decide (a.1 < b.1) || (decide (a.1 = b.1) && decide (a.2 < b.2))

/-- Python `bool` coerced to `int` by subtraction: `True` is 1, `False` is 0. -/
def boolToInt (b : Bool) : Int :=
  if b then 1 else 0

/-- `Categoria` (models.py lines 6-23): `nome`; the implicit primary key is
made explicit as `id`. -/
structure Categoria where
  id : Nat
  nome : String
deriving DecidableEq

/-- `Produto` (models.py lines 25-50).  `preco` is a `DecimalField` with
`MinValueValidator(0.01)`; `categoria` is a nullable FK (`on_delete=SET_NULL`);
`estoque` an `IntegerField` with `MinValueValidator(0)`; the two timestamps
are opaque values set by the framework. -/
structure Produto where
  nome : String
  descricao : String
  preco : ℚ
  categoria : Option Nat
  ativo : Bool
  estoque : Int
  data_cadastro : Nat
  data_atualizacao : Nat
deriving DecidableEq

/-- `Cliente` (models.py lines 52-88).  `user` is the FK to the auth user,
`estado` a 2-letter state code constrained by `choices=ESTADOS_BRASILEIROS`,
`telefone` and `data_nascimento` optional. -/
structure Cliente where
  user : Nat
  endereco : String
  cidade : String
  estado : String
  cep : String
  telefone : Option String
  data_nascimento : Option PyDate
deriving DecidableEq

/-- `Cliente.idade` (models.py lines 82-88):
`hoje.year - nasc.year - ((hoje.month, hoje.day) < (nasc.month, nasc.day))`
when `data_nascimento` is set (a `date` object is always truthy), `None`
otherwise. -/
def Cliente.idade (hoje : PyDate) (c : Cliente) : Option Int :=
  match c.data_nascimento with
  | some nasc =>
      some (hoje.year - nasc.year -
        boolToInt (pyTupleLt (hoje.month, hoje.day) (nasc.month, nasc.day)))
  | none => none

/-- A `Cliente` row carrying the given birth date, used to evaluate the age
computation at concrete inputs. -/
def clienteComNascimento (d : Option PyDate) : Cliente :=
  { user := 0, endereco := "Rua A", cidade := "Campinas", estado := "SP"
    cep := "13000-000", telefone := none, data_nascimento := d }

/-- `Estoque` (models.py lines 176-195): one-to-one with `Produto`,
`quantidade` an `IntegerField` with `MinValueValidator(0)`. -/
structure Estoque where
  produto : Nat
  quantidade : Int
  ultima_atualizacao : Nat
deriving DecidableEq

/-- `Estoque.disponivel` (models.py lines 188-190): `self.quantidade > 0`. -/
def Estoque.disponivel (e : Estoque) : Bool :=
  decide (e.quantidade > 0)

/-- `Estoque.precisa_reposicao` (models.py lines 192-195):
`self.quantidade < 5`. -/
def Estoque.precisa_reposicao (e : Estoque) : Bool :=
  decide (e.quantidade < 5)

/-- `Cliente.ESTADOS_BRASILEIROS` (models.py lines 53-61): the `choices`
list of the 27 Brazilian state codes with their display names. -/
def ESTADOS_BRASILEIROS : List (String × String) :=
  [("AC", "Acre"), ("AL", "Alagoas"), ("AP", "Amapá"), ("AM", "Amazonas"), ("BA", "Bahia"),
   ("CE", "Ceará"), ("DF", "Distrito Federal"), ("ES", "Espírito Santo"), ("GO", "Goiás"),
   ("MA", "Maranhão"), ("MT", "Mato Grosso"), ("MS", "Mato Grosso do Sul"), ("MG", "Minas Gerais"),
   ("PA", "Pará"), ("PB", "Paraíba"), ("PR", "Paraná"), ("PE", "Pernambuco"), ("PI", "Piauí"),
   ("RJ", "Rio de Janeiro"), ("RN", "Rio Grande do Norte"), ("RS", "Rio Grande do Sul"),
   ("RO", "Rondônia"), ("RR", "Roraima"), ("SC", "Santa Catarina"), ("SP", "São Paulo"),
   ("SE", "Sergipe"), ("TO", "Tocantins")]

/-- A field-level validation failure: the offending field and the violated
constraint, as Django's `ValidationError` reports them. -/
structure ValidationError where
  field : String
  constraint : String
deriving DecidableEq

/-- Django `MinValueValidator(limit)`: the value passes iff `limit ≤ value`. -/
def minValueCheck (limit v : ℚ) : Bool :=
  decide (limit ≤ v)

/-- Django `MaxValueValidator(limit)`: the value passes iff `value ≤ limit`. -/
def maxValueCheck (limit v : ℚ) : Bool :=
  decide (v ≤ limit)

/-- Django `choices` validation: the stored value must be one of the listed
first components. -/
def validChoice (choices : List (String × String)) (v : String) : Bool :=
  choices.any (fun c => decide (c.1 = v))

/-- Field validation of `Produto` on `full_clean` (models.py lines 28, 31):
`preco` carries `MinValueValidator(0.01)` and `estoque`
`MinValueValidator(0)`. -/
def Produto.full_clean (p : Produto) : List ValidationError :=
  (if minValueCheck (1 / 100) p.preco then [] else
    [{ field := "preco", constraint := "MinValueValidator 0.01" }]) ++
  (if decide ((0 : Int) ≤ p.estoque) then [] else
    [{ field := "estoque", constraint := "MinValueValidator 0" }])

/-- A validated create: the row is persisted (appended) only when
`full_clean` reports no error; otherwise the errors are raised and the
table is untouched. -/
def Produto.create (db : List Produto) (p : Produto) :
    Except (List ValidationError) (List Produto) :=
  match Produto.full_clean p with
  | [] => .ok (db ++ [p])
  | _ :: _ => .error (Produto.full_clean p)

/-- `AvaliacaoProduto` (models.py lines 145-156): FK `produto` and
`cliente`, `nota` a `PositiveIntegerField` with `MinValueValidator(1)` and
`MaxValueValidator(5)`, optional `comentario`. -/
structure AvaliacaoProduto where
  produto : Nat
  cliente : Nat
  nota : Nat
  comentario : Option String
deriving DecidableEq

/-- Field validation of `AvaliacaoProduto` on `full_clean` (models.py
line 148). -/
def AvaliacaoProduto.full_clean (a : AvaliacaoProduto) : List ValidationError :=
  (if decide (1 ≤ a.nota) then [] else
    [{ field := "nota", constraint := "MinValueValidator 1" }]) ++
  (if decide (a.nota ≤ 5) then [] else
    [{ field := "nota", constraint := "MaxValueValidator 5" }])

/-- Validated create for `AvaliacaoProduto`. -/
def AvaliacaoProduto.create (db : List AvaliacaoProduto) (a : AvaliacaoProduto) :
    Except (List ValidationError) (List AvaliacaoProduto) :=
  match AvaliacaoProduto.full_clean a with
  | [] => .ok (db ++ [a])
  | _ :: _ => .error (AvaliacaoProduto.full_clean a)

/-- `Promocao` (models.py lines 230-253): `desconto_percentual` is a
decimal with `MinValueValidator(0.00)` and `MaxValueValidator(100.00)`;
the many-to-many product list and timestamps are not needed here. -/
structure Promocao where
  nome : String
  descricao : Option String
  desconto_percentual : ℚ
  ativa : Bool
deriving DecidableEq

/-- Field validation of `Promocao` on `full_clean` (models.py line 233). -/
def Promocao.full_clean (pr : Promocao) : List ValidationError :=
  (if minValueCheck 0 pr.desconto_percentual then [] else
    [{ field := "desconto_percentual", constraint := "MinValueValidator 0.00" }]) ++
  (if maxValueCheck 100 pr.desconto_percentual then [] else
    [{ field := "desconto_percentual", constraint := "MaxValueValidator 100.00" }])

/-- Validated create for `Promocao`. -/
def Promocao.create (db : List Promocao) (pr : Promocao) :
    Except (List ValidationError) (List Promocao) :=
  match Promocao.full_clean pr with
  | [] => .ok (db ++ [pr])
  | _ :: _ => .error (Promocao.full_clean pr)

/-- Field validation of `Cliente` on `full_clean` (models.py line 66):
`estado` is restricted by `choices=ESTADOS_BRASILEIROS`. -/
def Cliente.full_clean (c : Cliente) : List ValidationError :=
  if validChoice ESTADOS_BRASILEIROS c.estado then [] else
    [{ field := "estado", constraint := "choices ESTADOS_BRASILEIROS" }]

/-- Validated create for `Cliente`. -/
def Cliente.create (db : List Cliente) (c : Cliente) :
    Except (List ValidationError) (List Cliente) :=
  match Cliente.full_clean c with
  | [] => .ok (db ++ [c])
  | _ :: _ => .error (Cliente.full_clean c)

/-- `ItemPedido` (models.py lines 122-132): FK `pedido` and `produto`,
`quantidade` a `PositiveIntegerField` with `default=1`, decimal
`preco_unitario` and `subtotal`; `unique_together = ('pedido', 'produto')`. -/
structure ItemPedido where
  pedido : Nat
  produto : Nat
  quantidade : Int
  preco_unitario : ℚ
  subtotal : ℚ
deriving DecidableEq

/-- `ItemCarrinho` (models.py lines 278-288): FK `carrinho` and `produto`,
`quantidade` a `PositiveIntegerField` with `default=1`, decimal
`preco_unitario` and `subtotal`; `unique_together = ('carrinho', 'produto')`. -/
structure ItemCarrinho where
  carrinho : Nat
  produto : Nat
  quantidade : Int
  preco_unitario : ℚ
  subtotal : ℚ
deriving DecidableEq

/-- Construction of an `ItemPedido` row: when `quantidade` is not supplied,
the declared `default=1` (models.py line 125) applies. -/
def mkItemPedido (pedido produto : Nat) (quantidade : Option Int)
    (preco_unitario subtotal : ℚ) : ItemPedido :=
  { pedido := pedido, produto := produto, quantidade := quantidade.getD 1
    preco_unitario := preco_unitario, subtotal := subtotal }

/-- Construction of an `ItemCarrinho` row: when `quantidade` is not
supplied, the declared `default=1` (models.py line 281) applies. -/
def mkItemCarrinho (carrinho produto : Nat) (quantidade : Option Int)
    (preco_unitario subtotal : ℚ) : ItemCarrinho :=
  { carrinho := carrinho, produto := produto, quantidade := quantidade.getD 1
    preco_unitario := preco_unitario, subtotal := subtotal }

/-- Django `PositiveIntegerField` validation: per the Django documentation
the value "must be either positive or zero", i.e. any integer ≥ 0 passes —
zero included.  Neither `quantidade` field adds a `MinValueValidator(1)`. -/
def positiveIntegerFieldClean (field : String) (v : Int) : List ValidationError :=
  if decide (0 ≤ v) then [] else [{ field := field, constraint := "PositiveIntegerField >= 0" }]

/-- Field validation of `ItemPedido` on `full_clean`: only the
`PositiveIntegerField` bound on `quantidade` (models.py line 125). -/
def ItemPedido.full_clean (i : ItemPedido) : List ValidationError :=
  positiveIntegerFieldClean "quantidade" i.quantidade

/-- Field validation of `ItemCarrinho` on `full_clean`: only the
`PositiveIntegerField` bound on `quantidade` (models.py line 281). -/
def ItemCarrinho.full_clean (i : ItemCarrinho) : List ValidationError :=
  positiveIntegerFieldClean "quantidade" i.quantidade

/-- Predicate for `unique_together = ('pedido', 'produto')`: the row `x`
collides with the pair. -/
def mesmoParPedido (pedido produto : Nat) (x : ItemPedido) : Bool :=
  decide (x.pedido = pedido) && decide (x.produto = produto)

/-- Predicate for `unique_together = ('produto', 'cliente')` on reviews. -/
def mesmoParAvaliacao (produto cliente : Nat) (x : AvaliacaoProduto) : Bool :=
  decide (x.produto = produto) && decide (x.cliente = cliente)

/-- Predicate for `unique_together = ('carrinho', 'produto')`. -/
def mesmoParCarrinho (carrinho produto : Nat) (x : ItemCarrinho) : Bool :=
  decide (x.carrinho = carrinho) && decide (x.produto = produto)

/-- Insert honouring `unique_together = ('pedido', 'produto')` (models.py
line 132): the database rejects a row duplicating an existing pair and the
table is left unchanged. -/
def ItemPedido.insert (rows : List ItemPedido) (r : ItemPedido) :
    Except String (List ItemPedido) :=
  if rows.any (mesmoParPedido r.pedido r.produto) then
    .error "UNIQUE constraint failed: itempedido.pedido, itempedido.produto"
  else .ok (rows ++ [r])

/-- Insert honouring `unique_together = ('produto', 'cliente')` (models.py
line 155). -/
def AvaliacaoProduto.insert (rows : List AvaliacaoProduto) (r : AvaliacaoProduto) :
    Except String (List AvaliacaoProduto) :=
  if rows.any (mesmoParAvaliacao r.produto r.cliente) then
    .error "UNIQUE constraint failed: avaliacaoproduto.produto, avaliacaoproduto.cliente"
  else .ok (rows ++ [r])

/-- Insert honouring `unique_together = ('carrinho', 'produto')` (models.py
line 288). -/
def ItemCarrinho.insert (rows : List ItemCarrinho) (r : ItemCarrinho) :
    Except String (List ItemCarrinho) :=
  if rows.any (mesmoParCarrinho r.carrinho r.produto) then
    .error "UNIQUE constraint failed: itemcarrinho.carrinho, itemcarrinho.produto"
  else .ok (rows ++ [r])

/-- `on_delete=models.SET_NULL` with `null=True` on `Produto.categoria`
(models.py line 29): deleting a `Categoria` row sets the `categoria`
reference of every product that pointed at it to NULL; no product row is
removed and no other field is touched. -/
def deleteCategoria (cid : Nat) (produtoTable : List Produto) : List Produto :=
  produtoTable.map (fun p =>
    if p.categoria = some cid then { p with categoria := none } else p)

/-- The `notas` dictionary of `AvaliacaoProduto.nota_extenso` (models.py
lines 163-169), with the source's literal label strings. -/
def notasDict : List (Nat × String) :=
  [(1, "Péssimo"), (2, "Ruim"), (3, "Regular"), (4, "Bom"), (5, "Excelente")]

/-- Python `dict.get(key, default)` on an association list. -/
def dictGet (d : List (Nat × String)) (k : Nat) (dflt : String) : String :=
  match d.find? (fun kv => decide (kv.1 = k)) with
  | some kv => kv.2
  | none => dflt

/-- `AvaliacaoProduto.nota_extenso` (models.py lines 161-170):
`notas.get(self.nota, 'Não Avaliado')`. -/
def AvaliacaoProduto.nota_extenso (a : AvaliacaoProduto) : String :=
  dictGet notasDict a.nota "Não Avaliado"

/-- A review row carrying the given rating, used at concrete inputs. -/
def avaliacaoComNota (n : Nat) : AvaliacaoProduto :=
  { produto := 1, cliente := 1, nota := n, comentario := none }

/-- `Carrinho` (models.py lines 255-276): one-to-one with `Cliente`; the
implicit primary key is made explicit as `id`, timestamps omitted. -/
structure Carrinho where
  id : Nat
  cliente : Nat
deriving DecidableEq

/-- The attribute name Django installs on the parent model for the reverse
side of a ForeignKey: the declared `related_name` when one is given,
otherwise the lowercased child model name followed by `_set`.  Declaring a
`related_name` replaces the default accessor. -/
def reverseAccessorName (childModelLower : String) (relatedName : Option String) : String :=
  match relatedName with
  | some n => n
  | none => childModelLower ++ "_set"

/-- Python attribute lookup of a reverse relation on a parent instance:
returns the related rows when the requested attribute is the accessor
Django installed, and raises `AttributeError` otherwise. -/
def djangoGetattr {α : Type} (attr childModelLower : String) (relatedName : Option String)
    (rows : List α) : Except String (List α) :=
  if attr = reverseAccessorName childModelLower relatedName then .ok rows
  else .error ("AttributeError: " ++ attr)

/-- `related_name='itens'` declared on `ItemCarrinho.carrinho` (models.py
line 279). -/
def ItemCarrinho.carrinho_related_name : Option String := some "itens"

/-- `related_name='produtos'` declared on `Produto.categoria` (models.py
line 29). -/
def Produto.categoria_related_name : Option String := some "produtos"

/-- `Carrinho.numero_itens` (models.py lines 267-269):
`self.itemcarrinho_set.count()` — the related rows are addressed through
the attribute name `itemcarrinho_set`. -/
def Carrinho.numero_itens (c : Carrinho) (itemCarrinhoTable : List ItemCarrinho) :
    Except String Nat :=
  (djangoGetattr "itemcarrinho_set" "itemcarrinho" ItemCarrinho.carrinho_related_name
    (itemCarrinhoTable.filter (fun i => decide (i.carrinho = c.id)))).map List.length

/-- `Carrinho.total_carrinho` (models.py lines 271-276): `total = 0`, then
`for item in self.itemcarrinho_set.all(): total += item.subtotal`. -/
def Carrinho.total_carrinho (c : Carrinho) (itemCarrinhoTable : List ItemCarrinho) :
    Except String ℚ :=
  (djangoGetattr "itemcarrinho_set" "itemcarrinho" ItemCarrinho.carrinho_related_name
    (itemCarrinhoTable.filter (fun i => decide (i.carrinho = c.id)))).map
    (fun rows => rows.foldl (fun total item => total + item.subtotal) 0)

/-- `Categoria.total_produtos` (models.py lines 17-19):
`self.produto_set.count()`. -/
def Categoria.total_produtos (c : Categoria) (produtoTable : List Produto) :
    Except String Nat :=
  (djangoGetattr "produto_set" "produto" Produto.categoria_related_name
    (produtoTable.filter (fun p => decide (p.categoria = some c.id)))).map List.length

/-- `Categoria.produtos_ativos` (models.py lines 21-23):
`self.produto_set.filter(ativo=True).count()`. -/
def Categoria.produtos_ativos (c : Categoria) (produtoTable : List Produto) :
    Except String Nat :=
  (djangoGetattr "produto_set" "produto" Produto.categoria_related_name
    (produtoTable.filter (fun p => decide (p.categoria = some c.id)))).map
    (fun rows => (rows.filter (fun p => p.ativo)).length)

/-- The cart and item rows of the spec's worked example: quantities 2 and 1
at unit prices 10.00 and 5.00, stored subtotals 20.00 and 5.00. -/
def carrinhoEx : Carrinho := { id := 1, cliente := 1 }

/-- Cart item with qty 2, unit 10.00, stored subtotal 20.00. -/
def itemCarrinho2x10 : ItemCarrinho := mkItemCarrinho 1 1 (some 2) 10 20

/-- Cart item with qty 1, unit 5.00, stored subtotal 5.00. -/
def itemCarrinho1x5 : ItemCarrinho := mkItemCarrinho 1 2 (some 1) 5 5

/-- A concrete category with id 7 and a product referencing it. -/
def categoriaEx : Categoria := { id := 7, nome := "Eletrônicos" }

/-- A product row whose `categoria` reference is category 7. -/
def produtoCat7 : Produto :=
  { nome := "Mouse", descricao := "sem fio", preco := 10, categoria := some 7
    ativo := true, estoque := 2, data_cadastro := 3, data_atualizacao := 4 }

/-- A customer row with the invalid state code "ZZ". -/
def clienteZZ : Cliente :=
  { user := 1, endereco := "Rua B", cidade := "Recife", estado := "ZZ"
    cep := "50000-000", telefone := none, data_nascimento := none }

/-- A product row priced 0, violating `MinValueValidator(0.01)`. -/
def produtoPrecoZero : Produto :=
  { nome := "Caneta", descricao := "azul", preco := 0, categoria := none
    ativo := true, estoque := 3, data_cadastro := 0, data_atualizacao := 0 }

theorem pyTupleLt_eq_true_iff (a b : Nat × Nat) :
    pyTupleLt a b = true ↔ a.1 < b.1 ∨ (a.1 = b.1 ∧ a.2 < b.2) := by
  simp [pyTupleLt]

/-- C1: for every customer whose birth date is set, the derived age is the
year difference minus one exactly when the current (month, day) pair is
lexicographically earlier than the birth (month, day) pair; with today =
2024-06-15, birth 2000-06-16 gives 23 and birth 2000-06-15 gives 24; an
unset birth date gives `none`. -/
theorem cliente_idade_spec :
    (∀ (hoje : PyDate) (c : Cliente) (nasc : PyDate),
        c.data_nascimento = some nasc →
        Cliente.idade hoje c = some (hoje.year - nasc.year -
          if hoje.month < nasc.month ∨ (hoje.month = nasc.month ∧ hoje.day < nasc.day)
          then 1 else 0)) ∧
    (∀ (hoje : PyDate) (c : Cliente),
        c.data_nascimento = none → Cliente.idade hoje c = none) ∧
    Cliente.idade ⟨2024, 6, 15⟩ (clienteComNascimento (some ⟨2000, 6, 16⟩)) = some 23 ∧
    Cliente.idade ⟨2024, 6, 15⟩ (clienteComNascimento (some ⟨2000, 6, 15⟩)) = some 24 := by
  refine ⟨?_, ?_, by decide, by decide⟩
  · intro hoje c nasc h
    simp only [Cliente.idade, h, boolToInt, Option.some.injEq]
    by_cases hlt : hoje.month < nasc.month ∨ (hoje.month = nasc.month ∧ hoje.day < nasc.day)
    · rw [if_pos hlt, if_pos ((pyTupleLt_eq_true_iff _ _).mpr hlt)]
    · rw [if_neg hlt, if_neg ?_]
      intro hb
      exact hlt ((pyTupleLt_eq_true_iff _ _).mp hb)
  · intro hoje c h
    simp [Cliente.idade, h]

/-- Witness for C1 at today = 2024-06-15, birth date 2000-06-16. -/
theorem cliente_idade_spec_witness :
    Cliente.idade ⟨2024, 6, 15⟩ (clienteComNascimento (some ⟨2000, 6, 16⟩)) =
      some ((2024 : Int) - 2000 -
        if (6 : Nat) < 6 ∨ ((6 : Nat) = 6 ∧ (15 : Nat) < 16) then 1 else 0) :=
  cliente_idade_spec.1 ⟨2024, 6, 15⟩ (clienteComNascimento (some ⟨2000, 6, 16⟩))
    ⟨2000, 6, 16⟩ rfl

/-- C3 counterexample: order-item and cart-item rows with quantity 0 pass
field validation, so "quantity is at least 1" does not hold. -/
theorem quantidade_at_least_one_counterexample :
    (mkItemPedido 1 2 (some 0) 10 0).quantidade = 0 ∧
    ItemPedido.full_clean (mkItemPedido 1 2 (some 0) 10 0) = [] ∧
    ¬(1 ≤ (mkItemPedido 1 2 (some 0) 10 0).quantidade) ∧
    (mkItemCarrinho 1 2 (some 0) 10 0).quantidade = 0 ∧
    ItemCarrinho.full_clean (mkItemCarrinho 1 2 (some 0) 10 0) = [] ∧
    ¬(1 ≤ (mkItemCarrinho 1 2 (some 0) 10 0).quantidade) := by
  refine ⟨rfl, rfl, by decide, rfl, rfl, by decide⟩

/-- C3 (amended): the quantity of an order item or cart item is a
non-negative integer — validation accepts exactly the values ≥ 0, zero
included — and it defaults to 1 when not supplied at creation. -/
theorem quantidade_default_and_validation :
    (∀ (pe pr : Nat) (pu st : ℚ), (mkItemPedido pe pr none pu st).quantidade = 1) ∧
    (∀ i : ItemPedido, ItemPedido.full_clean i = [] ↔ 0 ≤ i.quantidade) ∧
    (∀ (ca pr : Nat) (pu st : ℚ), (mkItemCarrinho ca pr none pu st).quantidade = 1) ∧
    (∀ i : ItemCarrinho, ItemCarrinho.full_clean i = [] ↔ 0 ≤ i.quantidade) := by
  refine ⟨fun _ _ _ _ => rfl, ?_, fun _ _ _ _ => rfl, ?_⟩
  · intro i
    simp [ItemPedido.full_clean, positiveIntegerFieldClean]
  · intro i
    simp [ItemCarrinho.full_clean, positiveIntegerFieldClean]

theorem filter_append_singleton_length {α : Type} (p : α → Bool) (rows : List α)
    (r : α) (h : rows.any p = false) (hr : p r = true) :
    ((rows ++ [r]).filter p).length = 1 := by
  have hnil : rows.filter p = [] := by
    rw [List.filter_eq_nil_iff]
    intro a ha
    exact (List.any_eq_false.mp h) a ha
  simp [List.filter_append, hnil, hr]

theorem any_append_singleton {α : Type} (p : α → Bool) (rows : List α) (r : α)
    (hr : p r = true) : (rows ++ [r]).any p = true := by
  simp [List.any_append, hr]

/-- C7: starting from a table with no row for the pair, the first insert
succeeds and a second insert with the same pair fails, leaving the first
row as the only one carrying the pair — for order items on (pedido,
produto), reviews on (produto, cliente) and cart items on (carrinho,
produto). -/
theorem unique_together_spec :
    (∀ (rows : List ItemPedido) (r s : ItemPedido),
      rows.any (mesmoParPedido r.pedido r.produto) = false →
      s.pedido = r.pedido → s.produto = r.produto →
      ItemPedido.insert rows r = .ok (rows ++ [r]) ∧
      (∃ msg, ItemPedido.insert (rows ++ [r]) s = .error msg) ∧
      ((rows ++ [r]).filter (mesmoParPedido r.pedido r.produto)).length = 1) ∧
    (∀ (rows : List AvaliacaoProduto) (r s : AvaliacaoProduto),
      rows.any (mesmoParAvaliacao r.produto r.cliente) = false →
      s.produto = r.produto → s.cliente = r.cliente →
      AvaliacaoProduto.insert rows r = .ok (rows ++ [r]) ∧
      (∃ msg, AvaliacaoProduto.insert (rows ++ [r]) s = .error msg) ∧
      ((rows ++ [r]).filter (mesmoParAvaliacao r.produto r.cliente)).length = 1) ∧
    (∀ (rows : List ItemCarrinho) (r s : ItemCarrinho),
      rows.any (mesmoParCarrinho r.carrinho r.produto) = false →
      s.carrinho = r.carrinho → s.produto = r.produto →
      ItemCarrinho.insert rows r = .ok (rows ++ [r]) ∧
      (∃ msg, ItemCarrinho.insert (rows ++ [r]) s = .error msg) ∧
      ((rows ++ [r]).filter (mesmoParCarrinho r.carrinho r.produto)).length = 1) := by
  refine ⟨?_, ?_, ?_⟩
  · intro rows r s h h1 h2
    have hr : mesmoParPedido r.pedido r.produto r = true := by
      simp [mesmoParPedido]
    refine ⟨by simp [ItemPedido.insert, h], ?_, filter_append_singleton_length _ rows r h hr⟩
    refine ⟨"UNIQUE constraint failed: itempedido.pedido, itempedido.produto", ?_⟩
    have hany : (rows ++ [r]).any (mesmoParPedido s.pedido s.produto) = true := by
      rw [h1, h2]
      exact any_append_singleton _ rows r hr
    simp [ItemPedido.insert, hany]
  · intro rows r s h h1 h2
    have hr : mesmoParAvaliacao r.produto r.cliente r = true := by
      simp [mesmoParAvaliacao]
    refine ⟨by simp [AvaliacaoProduto.insert, h], ?_, filter_append_singleton_length _ rows r h hr⟩
    refine ⟨"UNIQUE constraint failed: avaliacaoproduto.produto, avaliacaoproduto.cliente", ?_⟩
    have hany : (rows ++ [r]).any (mesmoParAvaliacao s.produto s.cliente) = true := by
      rw [h1, h2]
      exact any_append_singleton _ rows r hr
    simp [AvaliacaoProduto.insert, hany]
  · intro rows r s h h1 h2
    have hr : mesmoParCarrinho r.carrinho r.produto r = true := by
      simp [mesmoParCarrinho]
    refine ⟨by simp [ItemCarrinho.insert, h], ?_, filter_append_singleton_length _ rows r h hr⟩
    refine ⟨"UNIQUE constraint failed: itemcarrinho.carrinho, itemcarrinho.produto", ?_⟩
    have hany : (rows ++ [r]).any (mesmoParCarrinho s.carrinho s.produto) = true := by
      rw [h1, h2]
      exact any_append_singleton _ rows r hr
    simp [ItemCarrinho.insert, hany]

/-- Witness for C7: on an empty order-item table, inserting (pedido 1,
produto 2) succeeds and a second row for the same pair is rejected. -/
theorem unique_together_spec_witness :
    ItemPedido.insert [] (mkItemPedido 1 2 (some 1) 10 10) =
      .ok ([] ++ [mkItemPedido 1 2 (some 1) 10 10]) ∧
    (∃ msg, ItemPedido.insert ([] ++ [mkItemPedido 1 2 (some 1) 10 10])
      (mkItemPedido 1 2 (some 3) 10 30) = .error msg) ∧
    (([] ++ [mkItemPedido 1 2 (some 1) 10 10]).filter (mesmoParPedido 1 2)).length = 1 :=
  unique_together_spec.1 [] (mkItemPedido 1 2 (some 1) 10 10)
    (mkItemPedido 1 2 (some 3) 10 30) rfl rfl rfl

/-- C6: deleting a category removes no product, leaves every other field of
every product unchanged, and nullifies exactly the references to the
deleted category. -/
theorem categoria_set_null_spec (cid : Nat) (ps : List Produto) :
    (deleteCategoria cid ps).length = ps.length ∧
    ∀ (i : Nat) (hi : i < ps.length) (hj : i < (deleteCategoria cid ps).length),
      (deleteCategoria cid ps)[i] =
        { ps[i] with categoria := if ps[i].categoria = some cid then none else ps[i].categoria } := by
  constructor
  · simp [deleteCategoria]
  · intro i hi hj
    unfold deleteCategoria
    rw [List.getElem_map]
    by_cases h : ps[i].categoria = some cid
    · simp [h]
    · simp [h]

/-- Witness for C6 on a one-product table referencing category 7. -/
theorem categoria_set_null_spec_witness :
    (deleteCategoria 7 [produtoCat7]).length = ([produtoCat7] : List Produto).length ∧
    (deleteCategoria 7 [produtoCat7])[0] =
      { (([produtoCat7] : List Produto)[0]) with
          categoria := if (([produtoCat7] : List Produto)[0]).categoria = some 7 then none
            else (([produtoCat7] : List Produto)[0]).categoria } :=
  ⟨(categoria_set_null_spec 7 [produtoCat7]).1,
   (categoria_set_null_spec 7 [produtoCat7]).2 0 (by decide) (by decide)⟩

/-- C5 counterexample: at rating 5 the code yields the source's literal
label "Excelente", not the label "Excellent" the claim states. -/
theorem nota_extenso_labels_counterexample :
    AvaliacaoProduto.nota_extenso (avaliacaoComNota 5) = "Excelente" ∧
    AvaliacaoProduto.nota_extenso (avaliacaoComNota 5) ≠ "Excellent" := by
  exact ⟨rfl, by decide⟩

/-- C5 (amended): the rating-to-label computation maps 1,2,3,4,5 to the
source's five fixed labels Péssimo, Ruim, Regular, Bom, Excelente, and
every other rating (0, or anything above 5) to the default label
"Não Avaliado". -/
theorem nota_extenso_spec (a : AvaliacaoProduto) :
    (a.nota = 1 → a.nota_extenso = "Péssimo") ∧
    (a.nota = 2 → a.nota_extenso = "Ruim") ∧
    (a.nota = 3 → a.nota_extenso = "Regular") ∧
    (a.nota = 4 → a.nota_extenso = "Bom") ∧
    (a.nota = 5 → a.nota_extenso = "Excelente") ∧
    (a.nota = 0 ∨ 5 < a.nota → a.nota_extenso = "Não Avaliado") := by
  refine ⟨?_, ?_, ?_, ?_, ?_, ?_⟩
  case _ => intro h; unfold AvaliacaoProduto.nota_extenso; rw [h]; decide
  case _ => intro h; unfold AvaliacaoProduto.nota_extenso; rw [h]; decide
  case _ => intro h; unfold AvaliacaoProduto.nota_extenso; rw [h]; decide
  case _ => intro h; unfold AvaliacaoProduto.nota_extenso; rw [h]; decide
  case _ => intro h; unfold AvaliacaoProduto.nota_extenso; rw [h]; decide
  case _ =>
    intro h
    unfold AvaliacaoProduto.nota_extenso
    rcases h with h0 | h5
    · rw [h0]; decide
    · have e1 : decide ((1 : Nat) = a.nota) = false := decide_eq_false (by omega)
      have e2 : decide ((2 : Nat) = a.nota) = false := decide_eq_false (by omega)
      have e3 : decide ((3 : Nat) = a.nota) = false := decide_eq_false (by omega)
      have e4 : decide ((4 : Nat) = a.nota) = false := decide_eq_false (by omega)
      have e5 : decide ((5 : Nat) = a.nota) = false := decide_eq_false (by omega)
      simp [dictGet, notasDict, List.find?, e1, e2, e3, e4, e5]

/-- Witness for C5's amended mapping at ratings 5 and 99. -/
theorem nota_extenso_spec_witness :
    AvaliacaoProduto.nota_extenso (avaliacaoComNota 5) = "Excelente" ∧
    AvaliacaoProduto.nota_extenso (avaliacaoComNota 99) = "Não Avaliado" :=
  ⟨(nota_extenso_spec (avaliacaoComNota 5)).2.2.2.2.1 rfl,
   (nota_extenso_spec (avaliacaoComNota 99)).2.2.2.2.2 (Or.inr (by decide))⟩

/-- C2: on the example cart the stored subtotals sum to 25.00, but the
property `total_carrinho` raises `AttributeError: itemcarrinho_set`,
because `related_name='itens'` on `ItemCarrinho.carrinho` replaced the
default reverse accessor the property reads. -/
theorem carrinho_total_attribute_error :
    Carrinho.total_carrinho carrinhoEx [itemCarrinho2x10, itemCarrinho1x5] =
      .error "AttributeError: itemcarrinho_set" ∧
    ([itemCarrinho2x10, itemCarrinho1x5].foldl (fun total item => total + item.subtotal) 0 : ℚ)
      = 25 ∧
    reverseAccessorName "itemcarrinho" ItemCarrinho.carrinho_related_name = "itens" := by
  refine ⟨rfl, ?_, rfl⟩
  norm_num [List.foldl, itemCarrinho2x10, itemCarrinho1x5, mkItemCarrinho]

/-- C9: on an empty cart both derived computations raise
`AttributeError: itemcarrinho_set` instead of returning 0. -/
theorem carrinho_empty_attribute_error :
    Carrinho.numero_itens carrinhoEx [] = .error "AttributeError: itemcarrinho_set" ∧
    Carrinho.total_carrinho carrinhoEx [] = .error "AttributeError: itemcarrinho_set" :=
  ⟨rfl, rfl⟩

/-- C10: both category product counts raise `AttributeError: produto_set`,
because `related_name='produtos'` on `Produto.categoria` replaced the
default reverse accessor the properties read; neither count is computed. -/
theorem categoria_counts_attribute_error :
    Categoria.total_produtos categoriaEx [produtoCat7] = .error "AttributeError: produto_set" ∧
    Categoria.produtos_ativos categoriaEx [produtoCat7] = .error "AttributeError: produto_set" ∧
    reverseAccessorName "produto" Produto.categoria_related_name = "produtos" :=
  ⟨rfl, rfl, rfl⟩

theorem produto_create_error_of_clean (db : List Produto) (p : Produto)
    (h : Produto.full_clean p ≠ []) :
    Produto.create db p = .error (Produto.full_clean p) := by
  unfold Produto.create
  split
  · rename_i heq
    exact absurd heq h
  · rfl

theorem avaliacao_create_error_of_clean (db : List AvaliacaoProduto)
    (a : AvaliacaoProduto) (h : AvaliacaoProduto.full_clean a ≠ []) :
    AvaliacaoProduto.create db a = .error (AvaliacaoProduto.full_clean a) := by
  unfold AvaliacaoProduto.create
  split
  · rename_i heq
    exact absurd heq h
  · rfl

theorem promocao_create_error_of_clean (db : List Promocao) (pr : Promocao)
    (h : Promocao.full_clean pr ≠ []) :
    Promocao.create db pr = .error (Promocao.full_clean pr) := by
  unfold Promocao.create
  split
  · rename_i heq
    exact absurd heq h
  · rfl

theorem cliente_create_error_of_clean (db : List Cliente) (c : Cliente)
    (h : Cliente.full_clean c ≠ []) :
    Cliente.create db c = .error (Cliente.full_clean c) := by
  unfold Cliente.create
  split
  · rename_i heq
    exact absurd heq h
  · rfl

/-- C4: a create is rejected before persistence, with an error naming the
offending field and constraint, whenever price ≤ 0, stock < 0, rating
outside [1,5], discount outside [0,100], or the state code is outside the
27-value enumeration; in particular "ZZ" is rejected. -/
theorem boundary_validation_spec :
    ESTADOS_BRASILEIROS.length = 27 ∧
    (∀ (db : List Produto) (p : Produto), p.preco ≤ 0 →
      Produto.create db p = .error (Produto.full_clean p) ∧
      ValidationError.mk "preco" "MinValueValidator 0.01" ∈ Produto.full_clean p) ∧
    (∀ (db : List Produto) (p : Produto), p.estoque < 0 →
      Produto.create db p = .error (Produto.full_clean p) ∧
      ValidationError.mk "estoque" "MinValueValidator 0" ∈ Produto.full_clean p) ∧
    (∀ (db : List AvaliacaoProduto) (a : AvaliacaoProduto), ¬(1 ≤ a.nota ∧ a.nota ≤ 5) →
      AvaliacaoProduto.create db a = .error (AvaliacaoProduto.full_clean a) ∧
      ∃ e ∈ AvaliacaoProduto.full_clean a, e.field = "nota") ∧
    (∀ (db : List Promocao) (pr : Promocao),
      ¬((0 : ℚ) ≤ pr.desconto_percentual ∧ pr.desconto_percentual ≤ 100) →
      Promocao.create db pr = .error (Promocao.full_clean pr) ∧
      ∃ e ∈ Promocao.full_clean pr, e.field = "desconto_percentual") ∧
    (∀ (db : List Cliente) (c : Cliente), validChoice ESTADOS_BRASILEIROS c.estado = false →
      Cliente.create db c = .error (Cliente.full_clean c) ∧
      ValidationError.mk "estado" "choices ESTADOS_BRASILEIROS" ∈ Cliente.full_clean c) ∧
    (∀ (db : List Cliente) (c : Cliente), c.estado = "ZZ" →
      Cliente.create db c = .error (Cliente.full_clean c)) := by
  have hZZ : validChoice ESTADOS_BRASILEIROS "ZZ" = false := by decide
  refine ⟨by decide, ?_, ?_, ?_, ?_, ?_, ?_⟩
  · intro db p h
    have hmv : minValueCheck (1 / 100) p.preco = false := by
      simp only [minValueCheck, decide_eq_false_iff_not, not_le]
      linarith
    have hfc : ValidationError.mk "preco" "MinValueValidator 0.01" ∈ Produto.full_clean p := by
      unfold Produto.full_clean
      rw [hmv]
      simp
    exact ⟨produto_create_error_of_clean db p (List.ne_nil_of_mem hfc), hfc⟩
  · intro db p h
    have hmv : decide ((0 : Int) ≤ p.estoque) = false := by
      simp only [decide_eq_false_iff_not, not_le]
      exact h
    have hfc : ValidationError.mk "estoque" "MinValueValidator 0" ∈ Produto.full_clean p := by
      simp [Produto.full_clean, hmv]
    exact ⟨produto_create_error_of_clean db p (List.ne_nil_of_mem hfc), hfc⟩
  · intro db a h
    by_cases h1 : 1 ≤ a.nota
    · have h5 : ¬a.nota ≤ 5 := fun h5 => h ⟨h1, h5⟩
      have hfc : ValidationError.mk "nota" "MaxValueValidator 5" ∈ AvaliacaoProduto.full_clean a := by
        simp [AvaliacaoProduto.full_clean, h5]
      exact ⟨avaliacao_create_error_of_clean db a (List.ne_nil_of_mem hfc),
        ⟨_, hfc, rfl⟩⟩
    · have hfc : ValidationError.mk "nota" "MinValueValidator 1" ∈ AvaliacaoProduto.full_clean a := by
        simp [AvaliacaoProduto.full_clean, h1]
      exact ⟨avaliacao_create_error_of_clean db a (List.ne_nil_of_mem hfc),
        ⟨_, hfc, rfl⟩⟩
  · intro db pr h
    by_cases h0 : (0 : ℚ) ≤ pr.desconto_percentual
    · have h100 : ¬pr.desconto_percentual ≤ 100 := fun h100 => h ⟨h0, h100⟩
      have hmx : maxValueCheck 100 pr.desconto_percentual = false := by
        simpa only [maxValueCheck, decide_eq_false_iff_not] using h100
      have hfc : ValidationError.mk "desconto_percentual" "MaxValueValidator 100.00" ∈
          Promocao.full_clean pr := by
        simp [Promocao.full_clean, hmx]
      exact ⟨promocao_create_error_of_clean db pr (List.ne_nil_of_mem hfc), ⟨_, hfc, rfl⟩⟩
    · have hmn : minValueCheck 0 pr.desconto_percentual = false := by
        simpa only [minValueCheck, decide_eq_false_iff_not] using h0
      have hfc : ValidationError.mk "desconto_percentual" "MinValueValidator 0.00" ∈
          Promocao.full_clean pr := by
        simp [Promocao.full_clean, hmn]
      exact ⟨promocao_create_error_of_clean db pr (List.ne_nil_of_mem hfc), ⟨_, hfc, rfl⟩⟩
  · intro db c h
    have hfc : ValidationError.mk "estado" "choices ESTADOS_BRASILEIROS" ∈ Cliente.full_clean c := by
      simp [Cliente.full_clean, h]
    exact ⟨cliente_create_error_of_clean db c (List.ne_nil_of_mem hfc), hfc⟩
  · intro db c h
    have hv : validChoice ESTADOS_BRASILEIROS c.estado = false := by rw [h]; exact hZZ
    have hfc : ValidationError.mk "estado" "choices ESTADOS_BRASILEIROS" ∈ Cliente.full_clean c := by
      simp [Cliente.full_clean, hv]
    exact cliente_create_error_of_clean db c (List.ne_nil_of_mem hfc)

/-- Witness for C4: a product priced 0 and the customer with state "ZZ" are
both rejected. -/
theorem boundary_validation_spec_witness :
    (Produto.create [] produtoPrecoZero = .error (Produto.full_clean produtoPrecoZero) ∧
      ValidationError.mk "preco" "MinValueValidator 0.01" ∈ Produto.full_clean produtoPrecoZero) ∧
    Cliente.create [] clienteZZ = .error (Cliente.full_clean clienteZZ) :=
  ⟨boundary_validation_spec.2.1 [] produtoPrecoZero le_rfl,
   boundary_validation_spec.2.2.2.2.2.2 [] clienteZZ rfl⟩

/-- C8: `disponivel` holds exactly when the quantity is positive and
`precisa_reposicao` exactly when it is below the fixed threshold 5; both
are pure functions of the row. -/
theorem estoque_flags_spec (e : Estoque) :
    (Estoque.disponivel e = true ↔ 0 < e.quantidade) ∧
    (Estoque.precisa_reposicao e = true ↔ e.quantidade < 5) := by
  constructor
  · simp [Estoque.disponivel]
  · simp [Estoque.precisa_reposicao]
